import Mathlib

/-!
Verification development for the xeno-backend ingestion and webhook engine.

The definitions below are a shallow embedding of the TypeScript sources:
  - src/services/shopify-api.ts     (external source client, query parameters)
  - src/services/data-ingestion.ts  (paginated checkpointed ingestion)
  - src/services/webhook-handler.ts (signature check, dedup receipts, upserts)
  - src/routes/api.ts               (manual ingestion trigger route)
  - src/database/migrations.sql     (table shapes and uniqueness constraints)

Timestamps and identifiers are modelled as naturals, decimal columns as
rationals, SQL NULL as `Option`, and JavaScript `parseFloat` NaN as `none`.
-/

namespace Xeno

/-! ## JavaScript numeric parsing

`parseFloat` as used by the Upsert Writer and the webhook path.  The code
feeds it decimal strings such as "199.99"; the model implements the
ECMAScript behaviour on such inputs: skip leading whitespace, optional
sign, longest prefix of digits with at most one decimal point; if that
prefix contains no digit the result is NaN (modelled as `none`).
`parseFloat` never throws.
-/

/-- Numeric value of a decimal digit character, `none` otherwise. -/
def digitVal (c : Char) : Option Nat :=
  if c.isDigit then some (c.toNat - 48) else none

/-- Split a character list into its longest prefix of decimal digits and the rest. -/
def takeDigits : List Char → List Nat × List Char
  | [] => ([], [])
  | c :: cs =>
    match digitVal c with
    | some d => let p := takeDigits cs; (d :: p.1, p.2)
    | none => ([], c :: cs)

/-- Value of a digit list read in base 10. -/
def natOfDigits (ds : List Nat) : Nat :=
  ds.foldl (fun a d => 10 * a + d) 0

/-- JavaScript `parseFloat`, restricted to plain decimal notation.  Returns
`none` for NaN (no parsable numeric prefix); it has no failure/exception
outcome of any kind. -/
def parseFloat (s : String) : Option ℚ :=
  let cs := s.data.dropWhile Char.isWhitespace
  let signed : ℚ × List Char :=
    match cs with
    | '-' :: r => (-1, r)
    | '+' :: r => (1, r)
    | _ => (1, cs)
  let ip := takeDigits signed.2
  let fp :=
    match ip.2 with
    | '.' :: r => takeDigits r
    | _ => ([], ip.2)
  if ip.1 = [] ∧ fp.1 = [] then none
  else some (signed.1 * ((natOfDigits ip.1 : ℚ) + (natOfDigits fp.1 : ℚ) / (10 ^ fp.1.length)))

/-! ## Data model

Customer payloads (src/types/shopify.ts) and rows of the `customers`
table (migrations.sql).  `updated_at` on the payload is optional to model
the JavaScript falsy guard `c.updated_at || c.created_at` used by the
ingestion loop.
-/

/-- A customer record as returned by the external API. -/
structure ShopifyCustomer where
  id : Nat
  email : String
  first_name : String
  last_name : String
  phone : String
  total_spent : String
  orders_count : Nat
  created_at : Nat
  updated_at : Option Nat
  deriving DecidableEq, Repr

/-- A row of the `customers` table.  `total_spent` is a DECIMAL column;
`none` models a stored NaN (PostgreSQL `numeric` accepts NaN).  `created_at`
and `updated_at` are the local bookkeeping timestamps, distinct from the
source's `shopify_created_at` / `shopify_updated_at`. -/
structure CustomerRow where
  tenant_id : Nat
  shopify_customer_id : Nat
  email : String
  first_name : String
  last_name : String
  phone : String
  total_spent : Option ℚ
  orders_count : Nat
  shopify_created_at : Nat
  shopify_updated_at : Option Nat
  created_at : Nat
  updated_at : Nat
  deriving DecidableEq, Repr

/-- Key match for the UNIQUE(tenant_id, shopify_customer_id) constraint. -/
def customerKeyMatch (tenantId cid : Nat) (r : CustomerRow) : Bool :=
  r.tenant_id == tenantId && r.shopify_customer_id == cid

/-- Row built by the INSERT arm of the ingestion upsert: all columns from the
payload, local timestamps defaulted to now(). -/
def rowOfCustomer (tenantId : Nat) (c : ShopifyCustomer) (now : Nat) : CustomerRow where
  tenant_id := tenantId
  shopify_customer_id := c.id
  email := c.email
  first_name := c.first_name
  last_name := c.last_name
  phone := c.phone
  total_spent := parseFloat c.total_spent
  orders_count := c.orders_count
  shopify_created_at := c.created_at
  shopify_updated_at := c.updated_at
  created_at := now
  updated_at := now

/-- The DO UPDATE arm of the ingestion upsert: every mutable column is
overwritten from the payload, the local `updated_at` is refreshed to now();
`tenant_id`, `shopify_customer_id`, `shopify_created_at` and the local
`created_at` are left untouched. -/
def updateCustomerRow (c : ShopifyCustomer) (now : Nat) (r : CustomerRow) : CustomerRow :=
  { r with
    email := c.email
    first_name := c.first_name
    last_name := c.last_name
    phone := c.phone
    total_spent := parseFloat c.total_spent
    orders_count := c.orders_count
    updated_at := now
    shopify_updated_at := c.updated_at }

/-- The statement `INSERT ... ON CONFLICT (tenant_id, shopify_customer_id)
DO UPDATE` from DataIngestionService.ingestCustomers: update the conflicting row in place if
one exists, append a fresh row otherwise.  The write is total: it has no
error outcome (in particular a NaN `total_spent` is stored, not rejected). -/
def upsertCustomer (tenantId : Nat) (c : ShopifyCustomer) (now : Nat)
    (t : List CustomerRow) : List CustomerRow :=
  if t.any (customerKeyMatch tenantId c.id) then
    t.map (fun r => if customerKeyMatch tenantId c.id r then updateCustomerRow c now r else r)
  else t ++ [rowOfCustomer tenantId c now]

/-- Number of rows holding a given (tenant, external-id) pair. -/
def rowCount (tenantId cid : Nat) (t : List CustomerRow) : Nat :=
  (t.filter (customerKeyMatch tenantId cid)).length

/-- First row holding a given (tenant, external-id) pair. -/
def findCustomer (tenantId cid : Nat) (t : List CustomerRow) : Option CustomerRow :=
  t.find? (customerKeyMatch tenantId cid)

/-- The source-derived fields of a stored customer row (everything except the
local bookkeeping timestamps). -/
def sourceFields (r : CustomerRow) :
    Nat × Nat × String × String × String × String × Option ℚ × Nat × Nat × Option Nat :=
  (r.tenant_id, r.shopify_customer_id, r.email, r.first_name, r.last_name, r.phone,
   r.total_spent, r.orders_count, r.shopify_created_at, r.shopify_updated_at)

/-- The source-derived fields an upsert of payload `c` is specified to leave
in the row. -/
def payloadFields (tenantId : Nat) (c : ShopifyCustomer) :
    Nat × Nat × String × String × String × String × Option ℚ × Nat × Nat × Option Nat :=
  (tenantId, c.id, c.email, c.first_name, c.last_name, c.phone,
   parseFloat c.total_spent, c.orders_count, c.created_at, c.updated_at)

/-- The mutable fields of a stored customer row: the columns the DO UPDATE
arm overwrites from the payload (minus the local bookkeeping timestamp). -/
def mutableFields (r : CustomerRow) :
    String × String × String × String × Option ℚ × Nat × Option Nat :=
  (r.email, r.first_name, r.last_name, r.phone, r.total_spent, r.orders_count,
   r.shopify_updated_at)

/-- The mutable-field values carried by a payload. -/
def payloadMutables (c : ShopifyCustomer) :
    String × String × String × String × Option ℚ × Nat × Option Nat :=
  (c.email, c.first_name, c.last_name, c.phone, parseFloat c.total_spent,
   c.orders_count, c.updated_at)

/-- The `total_spent` value stored by WebhookHandler.handleCustomerUpdate:
`parseFloat(customer.total_spent || '0')` — an absent or empty string is
replaced by "0" before parsing. -/
def webhookTotalSpent (total_spent : Option String) : Option ℚ :=
  parseFloat (match total_spent with
    | some s => if s = "" then "0" else s
    | none => "0")

/-! ## External source client query parameters

ShopifyAPIService (src/services/shopify-api.ts) builds the query parameter
object sent with every page request.  `getCustomers`, `getProducts` and
`getOrders` each declare exactly two parameters, `(limit, sinceId)`; the
parameter object is `{ limit }` (plus `status: 'any'` for orders), with
`since_id` added only when `sinceId` is truthy (JavaScript: nonzero).
-/

/-- A query parameter value: a number or a string. -/
inductive ParamVal where
  | num (n : Nat)
  | str (s : String)
  deriving DecidableEq, Repr

/-- Parameters of GET /customers.json as built by ShopifyAPIService.getCustomers. -/
def getCustomersParams (limit : Nat) (sinceId : Option Nat) : List (String × ParamVal) :=
  [("limit", .num limit)] ++
    (match sinceId with
     | some s => if s = 0 then [] else [("since_id", .num s)]
     | none => [])

/-- Parameters of GET /products.json as built by ShopifyAPIService.getProducts. -/
def getProductsParams (limit : Nat) (sinceId : Option Nat) : List (String × ParamVal) :=
  [("limit", .num limit)] ++
    (match sinceId with
     | some s => if s = 0 then [] else [("since_id", .num s)]
     | none => [])

/-- Parameters of GET /orders.json as built by ShopifyAPIService.getOrders. -/
def getOrdersParams (limit : Nat) (sinceId : Option Nat) : List (String × ParamVal) :=
  [("limit", .num limit), ("status", .str "any")] ++
    (match sinceId with
     | some s => if s = 0 then [] else [("since_id", .num s)]
     | none => [])

/-- The page fetch performed by DataIngestionService.ingestCustomers.  The
call site is `shopify.getCustomers(250, sinceId, lastUpdatedAt ?? undefined)`:
it supplies the checkpoint timestamp as a third argument, but `getCustomers`
declares only `(limit, sinceId)`, so under JavaScript call semantics the
extra argument is dropped and the request carries exactly
`getCustomersParams 250 sinceId`. -/
def ingestCustomersFetchParams (sinceId : Option Nat) (lastUpdatedAt : Option Nat) :
    List (String × ParamVal) :=
  getCustomersParams 250 sinceId

/-- The page fetch performed by DataIngestionService.ingestProducts; the third
argument `lastUpdatedAt ?? undefined` is dropped by `getProducts (limit, sinceId)`. -/
def ingestProductsFetchParams (sinceId : Option Nat) (lastUpdatedAt : Option Nat) :
    List (String × ParamVal) :=
  getProductsParams 250 sinceId

/-- The page fetch performed by DataIngestionService.ingestOrders; the third
argument `lastUpdatedAt ?? undefined` is dropped by `getOrders (limit, sinceId)`. -/
def ingestOrdersFetchParams (sinceId : Option Nat) (lastUpdatedAt : Option Nat) :
    List (String × ParamVal) :=
  getOrdersParams 250 sinceId

/-! ## Ingestion orchestrator

DataIngestionService.ingestCustomers, embedded as a state transformer.  The
external source is modelled by a schedule: the list of results the source
returns to successive page fetches (a fetch can yield a page of records or
fail).  Beyond the end of the schedule the source returns empty pages.  The
state holds the `sync_checkpoints` value for this (tenant, 'customers') pair,
the `sync_logs` table and the `customers` table.
-/

/-- Result of one page fetch: a page of records or a transport error. -/
abbrev FetchResult : Type := Except String (List ShopifyCustomer)

/-- A row of the `sync_logs` table (the columns the engine writes). -/
structure SyncLog where
  tenant_id : Nat
  sync_type : String
  status : String
  records_processed : Nat
  error_message : Option String
  deriving DecidableEq, Repr

/-- Engine-visible state for one (tenant, 'customers') pair: its checkpoint
row (`last_updated_at`, absent when no row exists), the sync log table and
the customers table. -/
structure IngestState where
  checkpoint : Option Nat
  syncLogs : List SyncLog
  customers : List CustomerRow
  deriving DecidableEq, Repr

/-- Loop-carried variables of the `while (hasMore)` loop, plus a count of the
page fetches performed. -/
structure LoopAcc where
  totalProcessed : Nat
  sinceId : Option Nat
  maxUpdated : Option Nat
  table : List CustomerRow
  fetches : Nat
  deriving DecidableEq, Repr

/-- The expression `new Date(c.updated_at || c.created_at)`: the record's
updated-at, falling back to created-at when absent/falsy. -/
def effUpdatedAt (c : ShopifyCustomer) : Nat :=
  c.updated_at.getD c.created_at

/-- The per-page `maxUpdatedInRun` tracking fold. -/
def pageMax (cs : List ShopifyCustomer) (m : Option Nat) : Option Nat :=
  cs.foldl (fun acc c =>
    match acc with
    | none => some (effUpdatedAt c)
    | some x => some (max x (effUpdatedAt c))) m

/-- One page's atomic unit of work: upsert every record of the page. -/
def writePage (tenantId now : Nat) (cs : List ShopifyCustomer)
    (t : List CustomerRow) : List CustomerRow :=
  cs.foldl (fun acc c => upsertCustomer tenantId c now acc) t

/-- The `while (hasMore)` loop of ingestCustomers.  Each head of `pages` is
the result of the next page fetch; an exhausted schedule stands for a source
that returns an empty page (that fetch is still counted).  Returns the final
loop state and the error of the fetch that aborted the run, if any. -/
def runLoop (tenantId now : Nat) : List FetchResult → LoopAcc → LoopAcc × Option String
  | [], acc => ({ acc with fetches := acc.fetches + 1 }, none)
  | p :: rest, acc =>
    match p with
    | .error e => ({ acc with fetches := acc.fetches + 1 }, some e)
    | .ok cs =>
      let acc1 : LoopAcc := { acc with fetches := acc.fetches + 1 }
      if cs.isEmpty then (acc1, none)
      else
        let acc2 : LoopAcc :=
          { totalProcessed := acc1.totalProcessed + cs.length
            sinceId := cs.getLast?.map (fun c => c.id)
            maxUpdated := pageMax cs acc1.maxUpdated
            table := writePage tenantId now cs acc1.table
            fetches := acc1.fetches }
        if cs.length < 250 then (acc2, none)
        else runLoop tenantId now rest acc2

/-- Outcome of one orchestrator run, as seen by the caller: `success` is
false when the run threw, `processed` is the count reported to the sync log,
`maxUpdated` mirrors the run's `maxUpdatedInRun`, and `fetches` counts the
page fetches performed. -/
structure IngestResult where
  success : Bool
  processed : Nat
  errorMsg : Option String
  maxUpdated : Option Nat
  fetches : Nat
  deriving DecidableEq, Repr

/-- DataIngestionService.ingestCustomers: read the checkpoint, open a
'running' sync log, run the paginated loop, then either finalize the log as
'completed' and advance the checkpoint to GREATEST(stored, run max) when any
record was processed, or — on error — finalize the log as 'failed' with the
partial count and the error text and rethrow (modelled by `success := false`).
The checkpoint value read is only used to build fetch parameters (see
`ingestCustomersFetchParams`); it does not influence the schedule. -/
def ingestCustomers (tenantId now : Nat) (st : IngestState)
    (pages : List FetchResult) : IngestState × IngestResult :=
  let logs1 := st.syncLogs ++ [⟨tenantId, "customers", "running", 0, none⟩]
  let logIdx := st.syncLogs.length
  let r := runLoop tenantId now pages ⟨0, none, none, st.customers, 0⟩
  let acc := r.1
  match r.2 with
  | some e =>
    ({ checkpoint := st.checkpoint
       syncLogs := logs1.set logIdx ⟨tenantId, "customers", "failed", acc.totalProcessed, some e⟩
       customers := acc.table },
     ⟨false, acc.totalProcessed, some e, acc.maxUpdated, acc.fetches⟩)
  | none =>
    let ckpt : Option Nat :=
      if 0 < acc.totalProcessed then
        match acc.maxUpdated with
        | some m =>
          some (match st.checkpoint with
                | none => m
                | some o => max o m)
        | none => st.checkpoint
      else st.checkpoint
    ({ checkpoint := ckpt
       syncLogs := logs1.set logIdx ⟨tenantId, "customers", "completed", acc.totalProcessed, none⟩
       customers := acc.table },
     ⟨true, acc.totalProcessed, none, acc.maxUpdated, acc.fetches⟩)

/-! ## Manual ingestion trigger

POST /tenants/:tenantId/ingest (src/routes/api.ts), for a request whose
`data_types` is `['customers']`.  The route looks the tenant up by id and
returns 404 when absent; otherwise it invokes the ingestion service with the
tenant's stored `access_token` — present or not — performing no credential
check of its own.  An error thrown by the service is answered with a 500
carrying the error detail.
-/

/-- A row of the `tenants` table (the columns the trigger route reads);
`access_token` is nullable (migrations relax NOT NULL on it). -/
structure Tenant where
  id : Nat
  shop_domain : String
  access_token : Option String
  status : String
  deriving DecidableEq, Repr

/-- Response of the manual ingestion trigger. -/
inductive TriggerResponse where
  | notFound
  | ok (processed : Nat)
  | serverError (details : String)
  deriving DecidableEq, Repr

/-- POST /tenants/:tenantId/ingest with data_types = ['customers']. -/
def ingestTrigger (tenants : List Tenant) (tenantId now : Nat) (st : IngestState)
    (pages : List FetchResult) : IngestState × TriggerResponse :=
  match tenants.find? (fun t => t.id == tenantId) with
  | none => (st, .notFound)
  | some _t =>
    let r := ingestCustomers tenantId now st pages
    match r.2.errorMsg with
    | some e => (r.1, .serverError e)
    | none => (r.1, .ok r.2.processed)

/-- A page that stops the loop after being processed: an `ok` page shorter
than the requested page size (an empty page stops it too, before any write). -/
def isShortPage (p : FetchResult) : Bool :=
  match p with
  | .ok cs => decide (cs.length < 250)
  | .error _ => false

/-- A sequence of orchestrator runs for one (tenant, 'customers') pair: each
element of `runs` is the fetch schedule one run sees. -/
def runSeq (tenantId now : Nat) (st : IngestState)
    (runs : List (List FetchResult)) : IngestState :=
  runs.foldl (fun s pages => (ingestCustomers tenantId now s pages).1) st

/-- Order on stored checkpoint values: absent is below everything, and a
present value may only grow. -/
def chkLE (a b : Option Nat) : Bool :=
  match a, b with
  | none, _ => true
  | some _, none => false
  | some x, some y => decide (x ≤ y)

/-! ## Webhook receiver

WebhookHandler (src/services/webhook-handler.ts).  The keyed hash
(crypto.createHmac('sha256', secret) over the raw request bytes) is an
external primitive; the handlers are parameterized over it.  The raw body
is a byte list, distinct from the parsed payload.
-/

/-- A keyed-hash primitive: secret and raw bytes to a digest string. -/
abbrev HmacFn : Type := String → List Nat → String

/-- WebhookHandler.verifyWebhook: digest of the exact raw request bytes
compared with the signature header (`hash === signature`; an absent header
never equals the digest string). -/
def verifyWebhook (hmac : HmacFn) (secret : String) (rawBody : List Nat)
    (signature : Option String) : Bool :=
  match signature with
  | some s => hmac secret rawBody == s
  | none => false

/-- A row of the `webhook_receipts` table; `external_id` is a nullable BIGINT. -/
structure Receipt where
  tenant_id : Nat
  topic : String
  external_id : Option Nat
  deriving DecidableEq, Repr

/-- PostgreSQL unique-violation test for UNIQUE(tenant_id, topic, external_id):
a row with NULL external_id never collides with any row. -/
def receiptConflict (receipts : List Receipt) (r : Receipt) : Bool :=
  match r.external_id with
  | none => false
  | some _ => receipts.any (fun q => q == r)

/-- A row of the `custom_events` table (the columns the handlers write).
The resolved customer link is recorded by the linked row's unique
(tenant, external-id) key; the row's surrogate UUID primary key and the
`event_data` JSON echo of the payload are not modelled. -/
structure CustomEvent where
  tenant_id : Nat
  customer_ref : Option (Nat × Nat)
  event_type : String
  cart_token : Option String
  deriving DecidableEq, Repr

/-- The customer-resolution lookup
`SELECT id FROM customers WHERE tenant_id = $1 AND shopify_customer_id = $2`:
links the event to the matching customer row when one exists, else leaves the
reference null.  Never creates a customer row. -/
def resolveCustomer (tenantId : Nat) (cid : Option Nat)
    (t : List CustomerRow) : Option (Nat × Nat) :=
  match cid with
  | none => none
  | some c => if t.any (customerKeyMatch tenantId c) then some (tenantId, c) else none

/-- Headers and raw bytes of an inbound webhook request. -/
structure WebhookRequest where
  rawBody : List Nat
  signature : Option String
  shopDomain : Option String
  deriving DecidableEq, Repr

/-- State shared by the webhook handlers. -/
structure WebhookState where
  tenants : List Tenant
  receipts : List Receipt
  customers : List CustomerRow
  events : List CustomEvent
  deriving DecidableEq, Repr

/-- Response of a webhook handler. -/
inductive WebhookResponse where
  | unauthorized
  | tenantNotFound
  | success (duplicate : Bool)
  deriving DecidableEq, Repr

/-- The customer payload of a customers/update webhook; `total_spent` may be
absent from the loosely-typed body. -/
structure CustomerPayload where
  id : Nat
  email : String
  first_name : String
  last_name : String
  phone : String
  total_spent : Option String
  orders_count : Nat
  created_at : Nat
  updated_at : Option Nat
  deriving DecidableEq, Repr

/-- The webhook path's upsert is the same SQL statement as the ingestion
upsert, except that parameter 7 is `parseFloat(customer.total_spent || '0')`:
an absent or empty `total_spent` string is replaced by "0" before parsing.
This view of the payload performs that replacement, so that
`upsertCustomer`'s `parseFloat` coincides with the webhook's. -/
def customerOfPayload (p : CustomerPayload) : ShopifyCustomer where
  id := p.id
  email := p.email
  first_name := p.first_name
  last_name := p.last_name
  phone := p.phone
  total_spent :=
    match p.total_spent with
    | some s => if s = "" then "0" else s
    | none => "0"
  orders_count := p.orders_count
  created_at := p.created_at
  updated_at := p.updated_at

/-- Tenant lookup by the X-Shopify-Shop-Domain header
(`SELECT * FROM tenants WHERE shop_domain = $1`). -/
def findTenantByDomain (tenants : List Tenant) (domain : Option String) : Option Tenant :=
  match domain with
  | none => none
  | some d => tenants.find? (fun t => t.shop_domain == d)

/-- WebhookHandler.handleCustomerUpdate: verify the signature over the raw
bytes, resolve the tenant, claim a receipt keyed by (tenant,
'customers/update', customer.id) — a unique violation answers
success-as-duplicate with no further write — then upsert the customer. -/
def handleCustomerUpdate (hmac : HmacFn) (secret : String) (req : WebhookRequest)
    (p : CustomerPayload) (now : Nat) (st : WebhookState) :
    WebhookState × WebhookResponse :=
  if ¬ verifyWebhook hmac secret req.rawBody req.signature then (st, .unauthorized)
  else
    match findTenantByDomain st.tenants req.shopDomain with
    | none => (st, .tenantNotFound)
    | some t =>
      let rcpt : Receipt := ⟨t.id, "customers/update", some p.id⟩
      if receiptConflict st.receipts rcpt then (st, .success true)
      else
        ({ st with
             receipts := st.receipts ++ [rcpt]
             customers := upsertCustomer t.id (customerOfPayload p) now st.customers },
         .success false)

/-! ### Cart-abandoned dedup key

`handleCartAbandoned` claims its receipt with
`cartData?.token ? parseInt(Buffer.from(cartData.token).toString('hex').slice(0,12), 16) : null`:
the token's UTF-8 bytes, rendered as lowercase hex, truncated to the first
12 hex digits (6 bytes, 48 bits) and read as a base-16 integer; NULL when
the payload has no (or an empty, JavaScript-falsy) token.
-/

/-- UTF-8 encoding of one Unicode code point. -/
def utf8Char (n : Nat) : List Nat :=
  if n < 0x80 then [n]
  else if n < 0x800 then [0xC0 + n / 0x40, 0x80 + n % 0x40]
  else if n < 0x10000 then [0xE0 + n / 0x1000, 0x80 + n / 0x40 % 0x40, 0x80 + n % 0x40]
  else [0xF0 + n / 0x40000, 0x80 + n / 0x1000 % 0x40, 0x80 + n / 0x40 % 0x40, 0x80 + n % 0x40]

/-- UTF-8 byte encoding of a string (Buffer.from(token)). -/
def utf8Bytes (s : String) : List Nat :=
  s.data.foldr (fun c acc => utf8Char c.toNat ++ acc) []

/-- Lowercase hex digit for a value below 16. -/
def hexDigitChar (n : Nat) : Char :=
  if n < 10 then Char.ofNat (48 + n) else Char.ofNat (87 + n)

/-- Lowercase hex rendering of a byte list (buf.toString('hex')). -/
def bytesHex (bs : List Nat) : List Char :=
  bs.foldr (fun b acc => hexDigitChar (b / 16) :: hexDigitChar (b % 16) :: acc) []

/-- Numeric value of a hex digit character, `none` otherwise. -/
def hexVal (c : Char) : Option Nat :=
  if c.isDigit then some (c.toNat - 48)
  else if 'a' ≤ c ∧ c ≤ 'f' then some (c.toNat - 87)
  else if 'A' ≤ c ∧ c ≤ 'F' then some (c.toNat - 55)
  else none

/-- Longest prefix of hex digits and the rest. -/
def takeHexDigits : List Char → List Nat × List Char
  | [] => ([], [])
  | c :: cs =>
    match hexVal c with
    | some d => let p := takeHexDigits cs; (d :: p.1, p.2)
    | none => ([], c :: cs)

/-- JavaScript `parseInt(s, 16)` on the hex strings produced above: value of
the longest hex-digit prefix, NaN (`none`) when there is none. -/
def parseIntHex (cs : List Char) : Option Nat :=
  let p := takeHexDigits cs
  if p.1 = [] then none else some (p.1.foldl (fun a d => 16 * a + d) 0)

/-- The receipt `external_id` stored for a cart-abandoned delivery. -/
def cartDedupKey (token : Option String) : Option Nat :=
  match token with
  | none => none
  | some t =>
    if t = "" then none
    else parseIntHex ((bytesHex (utf8Bytes t)).take 12)

/-- The cart payload fields the handler reads: the cart token and the
embedded customer's external id, both optional. -/
structure CartPayload where
  token : Option String
  customer : Option Nat
  deriving DecidableEq, Repr

/-- WebhookHandler.handleCartAbandoned: verify, resolve tenant, claim a
receipt keyed by (tenant, 'carts/abandoned', `cartDedupKey token`) — unique
violation answers success-as-duplicate with no further write — then resolve
the optional customer link and append one cart_abandoned custom event. -/
def handleCartAbandoned (hmac : HmacFn) (secret : String) (req : WebhookRequest)
    (p : CartPayload) (st : WebhookState) : WebhookState × WebhookResponse :=
  if ¬ verifyWebhook hmac secret req.rawBody req.signature then (st, .unauthorized)
  else
    match findTenantByDomain st.tenants req.shopDomain with
    | none => (st, .tenantNotFound)
    | some t =>
      let rcpt : Receipt := ⟨t.id, "carts/abandoned", cartDedupKey p.token⟩
      if receiptConflict st.receipts rcpt then (st, .success true)
      else
        let cust := resolveCustomer t.id p.customer st.customers
        ({ st with
             receipts := st.receipts ++ [rcpt]
             events := st.events ++ [⟨t.id, cust, "cart_abandoned", p.token⟩] },
         .success false)

/-- The checkout payload fields the handler reads. -/
structure CheckoutPayload where
  id : Option Nat
  customer : Option Nat
  cart_token : Option String
  deriving DecidableEq, Repr

/-- WebhookHandler.handleCheckoutStarted: same protocol with topic
'checkouts/create', receipt external id `checkoutData?.id`, and a
checkout_started custom event. -/
def handleCheckoutStarted (hmac : HmacFn) (secret : String) (req : WebhookRequest)
    (p : CheckoutPayload) (st : WebhookState) : WebhookState × WebhookResponse :=
  if ¬ verifyWebhook hmac secret req.rawBody req.signature then (st, .unauthorized)
  else
    match findTenantByDomain st.tenants req.shopDomain with
    | none => (st, .tenantNotFound)
    | some t =>
      let rcpt : Receipt := ⟨t.id, "checkouts/create", p.id⟩
      if receiptConflict st.receipts rcpt then (st, .success true)
      else
        let cust := resolveCustomer t.id p.customer st.customers
        ({ st with
             receipts := st.receipts ++ [rcpt]
             events := st.events ++ [⟨t.id, cust, "checkout_started", p.cart_token⟩] },
         .success false)

/-! ## Helper lemmas -/

/-- The DO UPDATE arm never touches the uniqueness key. -/
theorem customerKeyMatch_update (tid cid : Nat) (c : ShopifyCustomer) (now : Nat)
    (r : CustomerRow) :
    customerKeyMatch tid cid (updateCustomerRow c now r) = customerKeyMatch tid cid r := rfl

/-- Updating the rows matched by `p` in place moves `find?` to the updated
first match, provided the update preserves `p`. -/
theorem find_map_update {p : CustomerRow → Bool} {f : CustomerRow → CustomerRow}
    (hf : ∀ r, p (f r) = p r) (t : List CustomerRow) (h : t.any p = true) :
    ∃ r, t.find? p = some r ∧ p r = true ∧
      (t.map fun x => if p x then f x else x).find? p = some (f r) := by
  induction t with
  | nil => simp at h
  | cons a l ih =>
    by_cases ha : p a = true
    · refine ⟨a, List.find?_cons_of_pos _ ha, ha, ?_⟩
      have hfa : p (f a) = true := by rw [hf]; exact ha
      simp only [List.map_cons, ha, if_true]
      exact List.find?_cons_of_pos _ hfa
    · have ha' : ¬ p a := by simpa using ha
      have hl : l.any p = true := by
        rcases (List.any_eq_true).1 h with ⟨x, hx, hpx⟩
        rcases hx with _ | hx
        · exact absurd hpx ha'
        · exact (List.any_eq_true).2 ⟨x, by assumption, hpx⟩
      obtain ⟨r, h1, h2, h3⟩ := ih hl
      refine ⟨r, ?_, h2, ?_⟩
      · rw [List.find?_cons_of_neg _ ha']; exact h1
      · have : (if p a then f a else a) = a := by simp [ha']
        simp only [List.map_cons, this]
        rw [List.find?_cons_of_neg _ ha']
        exact h3

/-- In-place updates that preserve the key leave the per-key row count alone. -/
theorem rowCount_map_update (tid cid : Nat) (c : ShopifyCustomer) (now : Nat)
    (t : List CustomerRow) :
    rowCount tid cid
        (t.map fun x => if customerKeyMatch tid cid x then updateCustomerRow c now x else x)
      = rowCount tid cid t := by
  unfold rowCount
  rw [List.filter_map, List.length_map]
  congr 1
  apply List.filter_congr
  intro x _
  by_cases hx : customerKeyMatch tid cid x = true <;>
    simp [Function.comp, hx, customerKeyMatch_update]

/-- Appending a row adds one to the count of its own key. -/
theorem rowCount_append_match (tid cid : Nat) (t : List CustomerRow) (r : CustomerRow)
    (hr : customerKeyMatch tid cid r = true) :
    rowCount tid cid (t ++ [r]) = rowCount tid cid t + 1 := by
  simp [rowCount, List.filter_append, hr]

/-- A key is present in a table iff its row count is positive. -/
theorem any_iff_rowCount_pos (tid cid : Nat) (t : List CustomerRow) :
    t.any (customerKeyMatch tid cid) = true ↔ 0 < rowCount tid cid t := by
  rw [List.any_eq_true, rowCount, List.length_pos_iff_ne_nil]
  constructor
  · rintro ⟨x, hx, hpx⟩ hnil
    have : x ∈ t.filter (customerKeyMatch tid cid) := List.mem_filter.2 ⟨hx, hpx⟩
    simp [hnil] at this
  · intro hne
    rcases List.exists_mem_of_ne_nil _ hne with ⟨x, hx⟩
    exact ⟨x, (List.mem_filter.1 hx).1, (List.mem_filter.1 hx).2⟩

/-- A key matched by no row has count zero. -/
theorem rowCount_eq_zero_of_any_false (tid cid : Nat) (t : List CustomerRow)
    (h : t.any (customerKeyMatch tid cid) = false) :
    rowCount tid cid t = 0 := by
  by_contra hne
  have : t.any (customerKeyMatch tid cid) = true :=
    (any_iff_rowCount_pos tid cid t).2 (Nat.pos_of_ne_zero fun h0 => hne h0)
  rw [this] at h
  exact Bool.noConfusion h

/-- After any single upsert, the table holds the payload's mutable field
values at the payload's key (first match). -/
theorem find_upsert_mutables (tid now : Nat) (c : ShopifyCustomer) (t : List CustomerRow) :
    (findCustomer tid c.id (upsertCustomer tid c now t)).map mutableFields =
      some (payloadMutables c) := by
  unfold upsertCustomer findCustomer
  by_cases h : t.any (customerKeyMatch tid c.id) = true
  · rw [if_pos h]
    obtain ⟨r, _, _, h3⟩ :=
      find_map_update (customerKeyMatch_update tid c.id c now) t h
    rw [h3]
    rfl
  · have h' : t.any (customerKeyMatch tid c.id) = false := by
      simpa using h
    rw [if_neg (by simp [h'])]
    rw [List.find?_append]
    have hnone : t.find? (customerKeyMatch tid c.id) = none := by
      rw [List.find?_eq_none]
      intro x hx
      simpa using (List.any_eq_false.1 h') x hx
    rw [hnone]
    have hrow : customerKeyMatch tid c.id (rowOfCustomer tid c now) = true := by
      simp [customerKeyMatch, rowOfCustomer]
    simp [List.find?_cons_of_pos _ hrow]
    rfl

/-! ## Claim theorems -/

/-- C1: the spec claims the stored checkpoint timestamp is passed to every
page fetch as a lower-bound updated-since filter.  In the code the ingestion
loop does supply `lastUpdatedAt` as a third argument, but the API client's
`getCustomers/getProducts/getOrders` accept only `(limit, sinceId)`: the
argument is dropped, the parameter set is independent of the checkpoint, and
a concrete page request with a checkpoint present carries only `limit`
(plus `since_id`/`status`) — never any updated-since filter. -/
theorem fetch_params_carry_no_updated_since :
    (∀ sinceId ts ts',
        ingestCustomersFetchParams sinceId ts = ingestCustomersFetchParams sinceId ts' ∧
        ingestProductsFetchParams sinceId ts = ingestProductsFetchParams sinceId ts' ∧
        ingestOrdersFetchParams sinceId ts = ingestOrdersFetchParams sinceId ts') ∧
    ingestCustomersFetchParams none (some 1700000000) = [("limit", .num 250)] ∧
    ingestCustomersFetchParams (some 42) (some 1700000000) =
      [("limit", .num 250), ("since_id", .num 42)] ∧
    ingestProductsFetchParams (some 42) (some 1700000000) =
      [("limit", .num 250), ("since_id", .num 42)] ∧
    ingestOrdersFetchParams (some 42) (some 1700000000) =
      [("limit", .num 250), ("status", .str "any"), ("since_id", .num 42)] :=
  ⟨fun _ _ _ => ⟨rfl, rfl, rfl⟩, by decide, by decide, by decide, by decide⟩

/-- C3 counterexample: a record whose `total_spent` fails to parse is not a
fatal error — the run completes successfully, the record is counted and its
row is written with a NaN value; and on the webhook path a missing or empty
`total_spent` is silently coerced to zero. -/
theorem parse_failure_not_fatal_cex :
    parseFloat "abc" = none ∧
    (ingestCustomers 1 99 ⟨none, [], []⟩
        [Except.ok [⟨7, "x@y.z", "F", "L", "p", "abc", 2, 100, some 200⟩]]).2.success = true ∧
    (ingestCustomers 1 99 ⟨none, [], []⟩
        [Except.ok [⟨7, "x@y.z", "F", "L", "p", "abc", 2, 100, some 200⟩]]).2.processed = 1 ∧
    (ingestCustomers 1 99 ⟨none, [], []⟩
        [Except.ok [⟨7, "x@y.z", "F", "L", "p", "abc", 2, 100, some 200⟩]]).1.customers =
      [⟨1, 7, "x@y.z", "F", "L", "p", none, 2, 100, some 200, 99, 99⟩] ∧
    webhookTotalSpent none = some 0 ∧
    webhookTotalSpent (some "") = some 0 := by
  refine ⟨rfl, rfl, rfl, rfl, ?_, ?_⟩ <;>
    simp +decide [webhookTotalSpent, parseFloat, takeDigits, digitVal, natOfDigits]

/-- C3 amended: numeric fields are parsed with `parseFloat`, which never
raises — a string with no parsable numeric prefix yields NaN and the record's
write still succeeds, storing NaN at the payload's key; on the webhook path a
missing or empty `total_spent` is replaced by "0" and stored as zero. -/
theorem numeric_parse_never_fatal :
    (∀ (tid now : Nat) (c : ShopifyCustomer) (t : List CustomerRow),
        (findCustomer tid c.id (upsertCustomer tid c now t)).map CustomerRow.total_spent =
          some (parseFloat c.total_spent)) ∧
    parseFloat "abc" = none ∧
    webhookTotalSpent none = some 0 ∧
    webhookTotalSpent (some "") = some 0 := by
  refine ⟨?_, rfl, ?_, ?_⟩
  case refine_2 =>
    simp +decide [webhookTotalSpent, parseFloat, takeDigits, digitVal, natOfDigits]
  case refine_3 =>
    simp +decide [webhookTotalSpent, parseFloat, takeDigits, digitVal, natOfDigits]
  intro tid now c t
  have h := find_upsert_mutables tid now c t
  cases hf : findCustomer tid c.id (upsertCustomer tid c now t) with
  | none => rw [hf] at h; exact absurd h (by simp)
  | some r =>
    rw [hf] at h
    have : mutableFields r = payloadMutables c := by simpa using h
    have ht : r.total_spent = parseFloat c.total_spent := congrArg (·.2.2.2.2.1) this
    simp [ht]

/-- C8: on a table satisfying the uniqueness invariant, ingesting the same
external record twice leaves exactly one row for its (tenant, external-id)
pair, the second run updates that row in place (no row is added), the
source-derived field values are identical after both runs, and they are the
payload's own mutable values. -/
theorem upsert_idempotent (tid now1 now2 : Nat) (c : ShopifyCustomer)
    (t : List CustomerRow) (hu : rowCount tid c.id t ≤ 1) :
    rowCount tid c.id (upsertCustomer tid c now1 t) = 1 ∧
    rowCount tid c.id (upsertCustomer tid c now2 (upsertCustomer tid c now1 t)) = 1 ∧
    (upsertCustomer tid c now2 (upsertCustomer tid c now1 t)).length
      = (upsertCustomer tid c now1 t).length ∧
    (findCustomer tid c.id (upsertCustomer tid c now2 (upsertCustomer tid c now1 t))).map
        sourceFields
      = (findCustomer tid c.id (upsertCustomer tid c now1 t)).map sourceFields ∧
    (findCustomer tid c.id (upsertCustomer tid c now1 t)).map mutableFields
      = some (payloadMutables c) := by
  have hupd : ∀ (now : Nat) (u : List CustomerRow),
      u.any (customerKeyMatch tid c.id) = true →
      upsertCustomer tid c now u =
        u.map (fun x => if customerKeyMatch tid c.id x then updateCustomerRow c now x else x) := by
    intro now u h
    unfold upsertCustomer
    rw [if_pos h]
  have hcount1 : rowCount tid c.id (upsertCustomer tid c now1 t) = 1 := by
    by_cases h : t.any (customerKeyMatch tid c.id) = true
    · rw [hupd now1 t h, rowCount_map_update]
      have hpos := (any_iff_rowCount_pos tid c.id t).1 h
      omega
    · have h' : t.any (customerKeyMatch tid c.id) = false := by simpa using h
      unfold upsertCustomer
      rw [if_neg (by simp [h'])]
      rw [rowCount_append_match tid c.id t _ (by simp [customerKeyMatch, rowOfCustomer])]
      rw [rowCount_eq_zero_of_any_false tid c.id t h']
  have hany1 : (upsertCustomer tid c now1 t).any (customerKeyMatch tid c.id) = true :=
    (any_iff_rowCount_pos tid c.id _).2 (by omega)
  have hmut1 := find_upsert_mutables tid now1 c t
  have hstep := hupd now2 _ hany1
  refine ⟨hcount1, ?_, ?_, ?_, hmut1⟩
  · rw [hstep, rowCount_map_update, hcount1]
  · rw [hstep, List.length_map]
  · obtain ⟨r, h1, h2, h3⟩ :=
      find_map_update (customerKeyMatch_update tid c.id c now2) _ hany1
    rw [hstep]
    unfold findCustomer
    rw [h3]
    rw [h1]
    -- the first run already left the payload's mutable values in r, so the
    -- second in-place update changes nothing source-derived
    have hr1 : findCustomer tid c.id (upsertCustomer tid c now1 t) = some r := h1
    rw [hr1] at hmut1
    have hmr : mutableFields r = payloadMutables c := by simpa using hmut1
    have he : r.email = c.email := congrArg (·.1) hmr
    have hf : r.first_name = c.first_name := congrArg (·.2.1) hmr
    have hl : r.last_name = c.last_name := congrArg (·.2.2.1) hmr
    have hph : r.phone = c.phone := congrArg (·.2.2.2.1) hmr
    have hts : r.total_spent = parseFloat c.total_spent := congrArg (·.2.2.2.2.1) hmr
    have hoc : r.orders_count = c.orders_count := congrArg (·.2.2.2.2.2.1) hmr
    have hsu : r.shopify_updated_at = c.updated_at := congrArg (·.2.2.2.2.2.2) hmr
    simp [sourceFields, updateCustomerRow, he, hf, hl, hph, hts, hoc, hsu]

/-- C8 witness: a concrete double ingestion of one record into an empty
table. -/
theorem upsert_idempotent_witness :
    rowCount 1 7 ([] : List CustomerRow) ≤ 1 ∧
    (rowCount 1 7 (upsertCustomer 1 ⟨7, "a@b.c", "A", "B", "+1", "10.50", 2, 100, some 200⟩ 5 []) = 1 ∧
     rowCount 1 7 (upsertCustomer 1 ⟨7, "a@b.c", "A", "B", "+1", "10.50", 2, 100, some 200⟩ 9
        (upsertCustomer 1 ⟨7, "a@b.c", "A", "B", "+1", "10.50", 2, 100, some 200⟩ 5 [])) = 1 ∧
     (upsertCustomer 1 ⟨7, "a@b.c", "A", "B", "+1", "10.50", 2, 100, some 200⟩ 9
        (upsertCustomer 1 ⟨7, "a@b.c", "A", "B", "+1", "10.50", 2, 100, some 200⟩ 5 [])).length
       = (upsertCustomer 1 ⟨7, "a@b.c", "A", "B", "+1", "10.50", 2, 100, some 200⟩ 5 []).length ∧
     (findCustomer 1 7 (upsertCustomer 1 ⟨7, "a@b.c", "A", "B", "+1", "10.50", 2, 100, some 200⟩ 9
        (upsertCustomer 1 ⟨7, "a@b.c", "A", "B", "+1", "10.50", 2, 100, some 200⟩ 5 []))).map
         sourceFields
       = (findCustomer 1 7
          (upsertCustomer 1 ⟨7, "a@b.c", "A", "B", "+1", "10.50", 2, 100, some 200⟩ 5 [])).map
           sourceFields ∧
     (findCustomer 1 7
        (upsertCustomer 1 ⟨7, "a@b.c", "A", "B", "+1", "10.50", 2, 100, some 200⟩ 5 [])).map
         mutableFields
       = some (payloadMutables ⟨7, "a@b.c", "A", "B", "+1", "10.50", 2, 100, some 200⟩)) :=
  ⟨by decide, upsert_idempotent 1 5 9 ⟨7, "a@b.c", "A", "B", "+1", "10.50", 2, 100, some 200⟩ []
    (by decide)⟩

/-- Setting the slot just appended overwrites it. -/
theorem set_append_length {α : Type} (l : List α) (a b : α) :
    (l ++ [a]).set l.length b = l ++ [b] := by
  induction l with
  | nil => rfl
  | cons x xs ih => simpa [List.set] using ih

theorem chkLE_refl (a : Option Nat) : chkLE a a = true := by
  cases a <;> simp [chkLE]

theorem chkLE_trans {a b c : Option Nat} (h1 : chkLE a b = true) (h2 : chkLE b c = true) :
    chkLE a c = true := by
  cases a <;> cases b <;> cases c <;> simp_all [chkLE] <;> omega

/-- A single run never lowers the stored checkpoint. -/
theorem ingest_chkLE (tid now : Nat) (st : IngestState) (pages : List FetchResult) :
    chkLE st.checkpoint (ingestCustomers tid now st pages).1.checkpoint = true := by
  rcases hr : runLoop tid now pages ⟨0, none, none, st.customers, 0⟩ with ⟨acc, err⟩
  cases err with
  | some e => simp only [ingestCustomers, hr]; exact chkLE_refl _
  | none =>
    simp only [ingestCustomers, hr]
    by_cases hp : 0 < acc.totalProcessed
    · cases hm : acc.maxUpdated with
      | none => simp [hp, hm, chkLE_refl]
      | some m =>
        cases hc : st.checkpoint with
        | none => simp [hp, hm, hc, chkLE]
        | some o => simp [hp, hm, hc, chkLE, Nat.le_max_left]
    · simp [hp, chkLE_refl]

/-- The fetch count reported by a run is the loop's fetch count. -/
theorem ingest_fetches (tid now : Nat) (st : IngestState) (pages : List FetchResult) :
    (ingestCustomers tid now st pages).2.fetches =
      (runLoop tid now pages ⟨0, none, none, st.customers, 0⟩).1.fetches := by
  rcases hr : runLoop tid now pages ⟨0, none, none, st.customers, 0⟩ with ⟨acc, err⟩
  cases err <;> simp [ingestCustomers, hr]

/-- The loop performs at most one fetch more than the schedule's length. -/
theorem runLoop_fetches_bound (tid now : Nat) :
    ∀ (pages : List FetchResult) (acc : LoopAcc),
      (runLoop tid now pages acc).1.fetches ≤ acc.fetches + pages.length + 1 := by
  intro pages
  induction pages with
  | nil => intro acc; simp [runLoop]
  | cons p rest ih =>
    intro acc
    cases p with
    | error e => simp [runLoop] <;> omega
    | ok cs =>
      by_cases he : cs.isEmpty
      · simp [runLoop, he] <;> omega
      · by_cases hl : cs.length < 250
        · simp [runLoop, he, hl] <;> omega
        · have hstep : runLoop tid now (Except.ok cs :: rest) acc =
              runLoop tid now rest ⟨acc.totalProcessed + cs.length,
                cs.getLast?.map (fun c => c.id), pageMax cs acc.maxUpdated,
                writePage tid now cs acc.table, acc.fetches + 1⟩ := by
            simp [runLoop, he, hl]
          rw [hstep]
          have h2 := ih ⟨acc.totalProcessed + cs.length,
            cs.getLast?.map (fun c => c.id), pageMax cs acc.maxUpdated,
            writePage tid now cs acc.table, acc.fetches + 1⟩
          simp only at h2
          simp only [List.length_cons]
          omega

/-- A short or empty page at position `j` of the schedule stops the loop:
no later page is ever fetched. -/
theorem runLoop_fetches_short (tid now : Nat) :
    ∀ (pages : List FetchResult) (acc : LoopAcc) (j : Nat) (hj : j < pages.length),
      isShortPage (pages.get ⟨j, hj⟩) = true →
      (runLoop tid now pages acc).1.fetches ≤ acc.fetches + j + 1 := by
  intro pages
  induction pages with
  | nil => intro acc j hj; exact absurd hj (by simp)
  | cons p rest ih =>
    intro acc j hj hshort
    cases p with
    | error e => simp [runLoop] <;> omega
    | ok cs =>
      by_cases he : cs.isEmpty
      · simp [runLoop, he] <;> omega
      · by_cases hl : cs.length < 250
        · simp [runLoop, he, hl] <;> omega
        · cases j with
          | zero =>
            exfalso
            simp [isShortPage] at hshort
            omega
          | succ k =>
            have hstep : runLoop tid now (Except.ok cs :: rest) acc =
                runLoop tid now rest ⟨acc.totalProcessed + cs.length,
                  cs.getLast?.map (fun c => c.id), pageMax cs acc.maxUpdated,
                  writePage tid now cs acc.table, acc.fetches + 1⟩ := by
              simp [runLoop, he, hl]
            rw [hstep]
            have hk : k < rest.length := by simpa using hj
            have hsk : isShortPage (rest.get ⟨k, hk⟩) = true := by simpa using hshort
            have h2 := ih ⟨acc.totalProcessed + cs.length,
              cs.getLast?.map (fun c => c.id), pageMax cs acc.maxUpdated,
              writePage tid now cs acc.table, acc.fetches + 1⟩ k hk hsk
            simp only at h2
            omega

/-- C7: pagination always terminates — a run performs at most one fetch more
than its schedule has pages, and a page that is empty or shorter than the
requested size 250 at position j stops the loop without requesting any page
beyond j. -/
theorem pagination_terminates (tid now : Nat) (st : IngestState) (pages : List FetchResult) :
    (ingestCustomers tid now st pages).2.fetches ≤ pages.length + 1 ∧
    ∀ (j : Nat) (hj : j < pages.length), isShortPage (pages.get ⟨j, hj⟩) = true →
      (ingestCustomers tid now st pages).2.fetches ≤ j + 1 := by
  rw [ingest_fetches]
  constructor
  · simpa using runLoop_fetches_bound tid now pages ⟨0, none, none, st.customers, 0⟩
  · intro j hj hs
    simpa using runLoop_fetches_short tid now pages ⟨0, none, none, st.customers, 0⟩ j hj hs

/-- C5: a run that fails leaves the checkpoint for its (tenant, entity)
exactly as it was before the run, finalizes the sync log as failed with the
partial processed count and the error text, and propagates the failure to
the caller. -/
theorem failed_run_preserves_checkpoint (tid now : Nat) (st : IngestState)
    (pages : List FetchResult) (e : String)
    (h : (ingestCustomers tid now st pages).2.errorMsg = some e) :
    (ingestCustomers tid now st pages).1.checkpoint = st.checkpoint ∧
    (ingestCustomers tid now st pages).2.success = false ∧
    (ingestCustomers tid now st pages).1.syncLogs =
      st.syncLogs ++ [⟨tid, "customers", "failed",
        (ingestCustomers tid now st pages).2.processed, some e⟩] := by
  rcases hr : runLoop tid now pages ⟨0, none, none, st.customers, 0⟩ with ⟨acc, err⟩
  cases err with
  | none =>
    exfalso
    simp only [ingestCustomers, hr] at h
    by_cases hp : 0 < acc.totalProcessed <;> simp [hp] at h
  | some e2 =>
    simp only [ingestCustomers, hr] at h ⊢
    have he : e2 = e := by simpa using h
    subst he
    refine ⟨trivial, trivial, ?_⟩
    rw [set_append_length]

/-- C4: across any sequence of runs the stored checkpoint never decreases,
and a completed run that processed records writes GREATEST(stored value,
run's maximum observed source-updated-at). -/
theorem checkpoint_monotone (tid now : Nat) (st : IngestState)
    (runs : List (List FetchResult)) :
    chkLE st.checkpoint (runSeq tid now st runs).checkpoint = true ∧
    ∀ (pages : List FetchResult) (m : Nat),
      (ingestCustomers tid now st pages).2.success = true →
      (ingestCustomers tid now st pages).2.maxUpdated = some m →
      0 < (ingestCustomers tid now st pages).2.processed →
      (ingestCustomers tid now st pages).1.checkpoint
        = some (max (st.checkpoint.getD m) m) := by
  constructor
  · induction runs generalizing st with
    | nil => simp [runSeq, chkLE_refl]
    | cons pg rest ih =>
      have h1 := ingest_chkLE tid now st pg
      have h2 := ih (ingestCustomers tid now st pg).1
      simp only [runSeq, List.foldl_cons] at h2 ⊢
      exact chkLE_trans h1 h2
  · intro pages m hs hm hp
    rcases hr : runLoop tid now pages ⟨0, none, none, st.customers, 0⟩ with ⟨acc, err⟩
    cases err with
    | some e => simp [ingestCustomers, hr] at hs
    | none =>
      simp only [ingestCustomers, hr] at hm hp ⊢
      simp only [hp, if_pos, hm]
      cases hc : st.checkpoint with
      | none => simp [Nat.max_self]
      | some o => simp

/-- Every run — successful or failed — appends exactly one sync log row. -/
theorem ingest_synclog_len (tid now : Nat) (st : IngestState) (pages : List FetchResult) :
    (ingestCustomers tid now st pages).1.syncLogs.length = st.syncLogs.length + 1 := by
  rcases hr : runLoop tid now pages ⟨0, none, none, st.customers, 0⟩ with ⟨acc, err⟩
  cases err <;> simp [ingestCustomers, hr]

/-- C2 counterexample: a tenant that exists but has no stored access token is
not rejected before the sync — the trigger still runs the ingestion, creates
a SyncLog row (finalized as failed) and answers with an ingestion failure
carrying the transport error, not with a precondition rejection. -/
theorem missing_credential_creates_synclog_cex :
    (ingestTrigger [⟨1, "shop.myshopify.com", none, "active"⟩] 1 99 ⟨none, [], []⟩
        [Except.error "Request failed with status code 401"]).1.syncLogs =
      [⟨1, "customers", "failed", 0, some "Request failed with status code 401"⟩] ∧
    (ingestTrigger [⟨1, "shop.myshopify.com", none, "active"⟩] 1 99 ⟨none, [], []⟩
        [Except.error "Request failed with status code 401"]).2 =
      .serverError "Request failed with status code 401" := ⟨rfl, rfl⟩

/-- C2 amended: the trigger rejects a missing tenant with not-found and no
sync attempt, but it performs no credential check: for an existing tenant
whose access token is absent the sync is attempted anyway, and a SyncLog row
is created for the request. -/
theorem ingest_trigger_no_credential_check (tenants : List Tenant) (tid now : Nat)
    (st : IngestState) (pages : List FetchResult) :
    (tenants.find? (fun t => t.id == tid) = none →
      ingestTrigger tenants tid now st pages = (st, .notFound)) ∧
    ∀ t : Tenant, tenants.find? (fun t2 => t2.id == tid) = some t →
      t.access_token = none →
      (ingestTrigger tenants tid now st pages).1.syncLogs.length
        = st.syncLogs.length + 1 := by
  constructor
  · intro h
    simp [ingestTrigger, h]
  · intro t ht _
    unfold ingestTrigger
    rw [ht]
    rcases he : (ingestCustomers tid now st pages).2.errorMsg with _ | e <;>
      simp only [he] <;> exact ingest_synclog_len tid now st pages

/-- C2 amended witness: a concrete missing tenant is answered not-found with
no state change, and a concrete credential-less tenant still gets a sync
attempt with one SyncLog created. -/
theorem ingest_trigger_no_credential_check_witness :
    ingestTrigger [⟨1, "shop.myshopify.com", none, "active"⟩] 2 99 ⟨none, [], []⟩ []
      = (⟨none, [], []⟩, .notFound) ∧
    (ingestTrigger [⟨1, "shop.myshopify.com", none, "active"⟩] 1 99 ⟨none, [], []⟩
        [Except.error "401"]).1.syncLogs.length = ([] : List SyncLog).length + 1 := by
  constructor
  · exact (ingest_trigger_no_credential_check
      [⟨1, "shop.myshopify.com", none, "active"⟩] 2 99 ⟨none, [], []⟩ []).1 rfl
  · exact (ingest_trigger_no_credential_check
      [⟨1, "shop.myshopify.com", none, "active"⟩] 1 99 ⟨none, [], []⟩
      [Except.error "401"]).2 ⟨1, "shop.myshopify.com", none, "active"⟩ rfl rfl

/-- C4 witness: one concrete completed run raises the checkpoint from 150 to
GREATEST(150, 200). -/
theorem checkpoint_monotone_witness :
    chkLE (IngestState.mk (some 150) [] []).checkpoint
        (runSeq 1 99 ⟨some 150, [], []⟩
          [[Except.ok [⟨7, "a@b.c", "A", "B", "+1", "10.50", 2, 100, some 200⟩]]]).checkpoint
      = true ∧
    (ingestCustomers 1 99 ⟨some 150, [], []⟩
        [Except.ok [⟨7, "a@b.c", "A", "B", "+1", "10.50", 2, 100, some 200⟩]]).1.checkpoint
      = some (max ((some 150 : Option Nat).getD 200) 200) := by
  refine ⟨(checkpoint_monotone 1 99 ⟨some 150, [], []⟩ _).1, ?_⟩
  exact (checkpoint_monotone 1 99 ⟨some 150, [], []⟩ []).2
    [Except.ok [⟨7, "a@b.c", "A", "B", "+1", "10.50", 2, 100, some 200⟩]] 200
    rfl rfl (by decide)

set_option maxRecDepth 100000 in
/-- C5 witness: a run that commits one full page of 250 records and then hits
a transport error keeps the checkpoint at 150 and logs failed/250/"boom". -/
theorem failed_run_preserves_checkpoint_witness :
    (ingestCustomers 1 99 ⟨some 150, [], []⟩
        [Except.ok (List.replicate 250 ⟨7, "a@b.c", "A", "B", "+1", "10.50", 2, 100, some 200⟩),
         Except.error "boom"]).1.checkpoint = (IngestState.mk (some 150) [] []).checkpoint ∧
    (ingestCustomers 1 99 ⟨some 150, [], []⟩
        [Except.ok (List.replicate 250 ⟨7, "a@b.c", "A", "B", "+1", "10.50", 2, 100, some 200⟩),
         Except.error "boom"]).2.success = false ∧
    (ingestCustomers 1 99 ⟨some 150, [], []⟩
        [Except.ok (List.replicate 250 ⟨7, "a@b.c", "A", "B", "+1", "10.50", 2, 100, some 200⟩),
         Except.error "boom"]).1.syncLogs =
      (IngestState.mk (some 150) [] []).syncLogs ++ [⟨1, "customers", "failed",
        (ingestCustomers 1 99 ⟨some 150, [], []⟩
          [Except.ok (List.replicate 250 ⟨7, "a@b.c", "A", "B", "+1", "10.50", 2, 100, some 200⟩),
           Except.error "boom"]).2.processed, some "boom"⟩] :=
  failed_run_preserves_checkpoint 1 99 ⟨some 150, [], []⟩
    [Except.ok (List.replicate 250 ⟨7, "a@b.c", "A", "B", "+1", "10.50", 2, 100, some 200⟩),
     Except.error "boom"] "boom" rfl

set_option maxRecDepth 100000 in
/-- C7 witness: with a short page at position 1 of a three-page schedule, the
run performs at most two fetches. -/
theorem pagination_terminates_witness :
    (ingestCustomers 1 99 ⟨none, [], []⟩
        [Except.ok (List.replicate 250 ⟨7, "a@b.c", "A", "B", "+1", "10.50", 2, 100, some 200⟩),
         Except.ok [⟨8, "d@e.f", "C", "D", "+2", "3", 1, 300, some 400⟩],
         Except.ok (List.replicate 250 ⟨7, "a@b.c", "A", "B", "+1", "10.50", 2, 100, some 200⟩)]).2.fetches
      ≤ 3 + 1 ∧
    (ingestCustomers 1 99 ⟨none, [], []⟩
        [Except.ok (List.replicate 250 ⟨7, "a@b.c", "A", "B", "+1", "10.50", 2, 100, some 200⟩),
         Except.ok [⟨8, "d@e.f", "C", "D", "+2", "3", 1, 300, some 400⟩],
         Except.ok (List.replicate 250 ⟨7, "a@b.c", "A", "B", "+1", "10.50", 2, 100, some 200⟩)]).2.fetches
      ≤ 1 + 1 := by
  constructor
  · exact (pagination_terminates 1 99 ⟨none, [], []⟩ _).1
  · exact (pagination_terminates 1 99 ⟨none, [], []⟩ _).2 1 (by decide) rfl

/-- C6: under a valid signature, a resolved tenant and a not-yet-seen event
id, the first delivery claims the receipt and performs exactly the one
customer upsert; redelivering the same event answers success-as-duplicate
and performs no write of any kind (the state is untouched), so two
deliveries yield one data mutation and two success responses. -/
theorem webhook_dedup_single_mutation (hmac : HmacFn) (secret : String)
    (req : WebhookRequest) (p : CustomerPayload) (now1 now2 : Nat) (st : WebhookState)
    (t : Tenant)
    (hsig : verifyWebhook hmac secret req.rawBody req.signature = true)
    (ht : findTenantByDomain st.tenants req.shopDomain = some t)
    (hfresh : receiptConflict st.receipts ⟨t.id, "customers/update", some p.id⟩ = false) :
    (handleCustomerUpdate hmac secret req p now1 st).2 = .success false ∧
    (handleCustomerUpdate hmac secret req p now1 st).1.customers =
      upsertCustomer t.id (customerOfPayload p) now1 st.customers ∧
    (handleCustomerUpdate hmac secret req p now2
        (handleCustomerUpdate hmac secret req p now1 st).1).2 = .success true ∧
    (handleCustomerUpdate hmac secret req p now2
        (handleCustomerUpdate hmac secret req p now1 st).1).1 =
      (handleCustomerUpdate hmac secret req p now1 st).1 := by
  have h1 : handleCustomerUpdate hmac secret req p now1 st =
      ({ st with receipts := st.receipts ++ [⟨t.id, "customers/update", some p.id⟩]
                 customers := upsertCustomer t.id (customerOfPayload p) now1 st.customers },
       .success false) := by
    simp [handleCustomerUpdate, hsig, ht, hfresh]
  have hdup : receiptConflict
      (st.receipts ++ [(⟨t.id, "customers/update", some p.id⟩ : Receipt)])
      ⟨t.id, "customers/update", some p.id⟩ = true := by
    simp [receiptConflict, List.any_append]
  have h2 : handleCustomerUpdate hmac secret req p now2
      (handleCustomerUpdate hmac secret req p now1 st).1 =
      ((handleCustomerUpdate hmac secret req p now1 st).1, .success true) := by
    rw [h1]
    simp [handleCustomerUpdate, hsig, ht, hdup]
  refine ⟨by rw [h1], by rw [h1], by rw [h2], by rw [h2]⟩

/-- C6 witness: a concrete double delivery of customers/update event 7. -/
theorem webhook_dedup_single_mutation_witness :
    (handleCustomerUpdate (fun _ _ => "sig") "sec" ⟨[1, 2], some "sig", some "shop"⟩
        ⟨7, "a@b.c", "A", "B", "+1", some "10.50", 2, 100, some 200⟩ 5
        ⟨[⟨1, "shop", none, "active"⟩], [], [], []⟩).2 = .success false ∧
    (handleCustomerUpdate (fun _ _ => "sig") "sec" ⟨[1, 2], some "sig", some "shop"⟩
        ⟨7, "a@b.c", "A", "B", "+1", some "10.50", 2, 100, some 200⟩ 5
        ⟨[⟨1, "shop", none, "active"⟩], [], [], []⟩).1.customers =
      upsertCustomer 1
        (customerOfPayload ⟨7, "a@b.c", "A", "B", "+1", some "10.50", 2, 100, some 200⟩) 5 [] ∧
    (handleCustomerUpdate (fun _ _ => "sig") "sec" ⟨[1, 2], some "sig", some "shop"⟩
        ⟨7, "a@b.c", "A", "B", "+1", some "10.50", 2, 100, some 200⟩ 9
        (handleCustomerUpdate (fun _ _ => "sig") "sec" ⟨[1, 2], some "sig", some "shop"⟩
          ⟨7, "a@b.c", "A", "B", "+1", some "10.50", 2, 100, some 200⟩ 5
          ⟨[⟨1, "shop", none, "active"⟩], [], [], []⟩).1).2 = .success true ∧
    (handleCustomerUpdate (fun _ _ => "sig") "sec" ⟨[1, 2], some "sig", some "shop"⟩
        ⟨7, "a@b.c", "A", "B", "+1", some "10.50", 2, 100, some 200⟩ 9
        (handleCustomerUpdate (fun _ _ => "sig") "sec" ⟨[1, 2], some "sig", some "shop"⟩
          ⟨7, "a@b.c", "A", "B", "+1", some "10.50", 2, 100, some 200⟩ 5
          ⟨[⟨1, "shop", none, "active"⟩], [], [], []⟩).1).1 =
      (handleCustomerUpdate (fun _ _ => "sig") "sec" ⟨[1, 2], some "sig", some "shop"⟩
        ⟨7, "a@b.c", "A", "B", "+1", some "10.50", 2, 100, some 200⟩ 5
        ⟨[⟨1, "shop", none, "active"⟩], [], [], []⟩).1 :=
  webhook_dedup_single_mutation (fun _ _ => "sig") "sec" ⟨[1, 2], some "sig", some "shop"⟩
    ⟨7, "a@b.c", "A", "B", "+1", some "10.50", 2, 100, some 200⟩ 5 9
    ⟨[⟨1, "shop", none, "active"⟩], [], [], []⟩ ⟨1, "shop", none, "active"⟩
    rfl rfl rfl

/-- C9: the webhook signature is a keyed hash of the exact raw request bytes
compared with the signature header, and when the comparison fails every
handler answers unauthorized with the state — receipts, entity rows and
custom events — completely untouched. -/
theorem bad_signature_no_writes (hmac : HmacFn) (secret : String) (req : WebhookRequest)
    (pc : CustomerPayload) (pa : CartPayload) (pk : CheckoutPayload) (now : Nat)
    (st : WebhookState)
    (h : verifyWebhook hmac secret req.rawBody req.signature = false) :
    (∀ s, req.signature = some s →
        verifyWebhook hmac secret req.rawBody req.signature
          = (hmac secret req.rawBody == s)) ∧
    handleCustomerUpdate hmac secret req pc now st = (st, .unauthorized) ∧
    handleCartAbandoned hmac secret req pa st = (st, .unauthorized) ∧
    handleCheckoutStarted hmac secret req pk st = (st, .unauthorized) := by
  refine ⟨?_, ?_, ?_, ?_⟩
  · intro s hs; rw [hs]; rfl
  · simp [handleCustomerUpdate, h]
  · simp [handleCartAbandoned, h]
  · simp [handleCheckoutStarted, h]

/-- C9 witness: a concrete request whose signature header does not match the
digest is rejected by all three handlers with no writes. -/
theorem bad_signature_no_writes_witness :
    (∀ s, (some "bad" : Option String) = some s →
        verifyWebhook (fun _ _ => "good") "sec" [1, 2] (some "bad")
          = ((fun (_ : String) (_ : List Nat) => "good") "sec" [1, 2] == s)) ∧
    handleCustomerUpdate (fun _ _ => "good") "sec" ⟨[1, 2], some "bad", some "shop"⟩
        ⟨7, "a@b.c", "A", "B", "+1", some "10.50", 2, 100, some 200⟩ 5
        ⟨[⟨1, "shop", none, "active"⟩], [], [], []⟩
      = (⟨[⟨1, "shop", none, "active"⟩], [], [], []⟩, .unauthorized) ∧
    handleCartAbandoned (fun _ _ => "good") "sec" ⟨[1, 2], some "bad", some "shop"⟩
        ⟨some "tok", none⟩ ⟨[⟨1, "shop", none, "active"⟩], [], [], []⟩
      = (⟨[⟨1, "shop", none, "active"⟩], [], [], []⟩, .unauthorized) ∧
    handleCheckoutStarted (fun _ _ => "good") "sec" ⟨[1, 2], some "bad", some "shop"⟩
        ⟨some 3, none, none⟩ ⟨[⟨1, "shop", none, "active"⟩], [], [], []⟩
      = (⟨[⟨1, "shop", none, "active"⟩], [], [], []⟩, .unauthorized) :=
  bad_signature_no_writes (fun _ _ => "good") "sec" ⟨[1, 2], some "bad", some "shop"⟩
    ⟨7, "a@b.c", "A", "B", "+1", some "10.50", 2, 100, some 200⟩ ⟨some "tok", none⟩
    ⟨some 3, none, none⟩ 5 ⟨[⟨1, "shop", none, "active"⟩], [], [], []⟩ (by decide)

/-- A receipt with NULL external id never conflicts. -/
theorem receiptConflict_none (l : List Receipt) (a : Nat) (b : String) :
    receiptConflict l ⟨a, b, none⟩ = false := rfl

/-- Truncating the hex rendering to 2k digits is rendering the first k bytes. -/
theorem bytesHex_take (k : Nat) (bs : List Nat) :
    (bytesHex bs).take (2 * k) = bytesHex (bs.take k) := by
  induction bs generalizing k with
  | nil => simp [bytesHex]
  | cons b rest ih =>
    cases k with
    | zero => simp [bytesHex]
    | succ k2 =>
      have h2 : 2 * (k2 + 1) = (2 * k2) + 1 + 1 := by ring
      simp only [bytesHex, List.foldr_cons, h2, List.take_succ_cons]
      have := ih k2
      simp only [bytesHex] at this
      simp [this]

/-- Tokens agreeing on their first six bytes get the same dedup key. -/
theorem cartDedupKey_eq_of_take6 (tk1 tk2 : String) (h1 : tk1 ≠ "") (h2 : tk2 ≠ "")
    (hpre : (utf8Bytes tk1).take 6 = (utf8Bytes tk2).take 6) :
    cartDedupKey (some tk1) = cartDedupKey (some tk2) := by
  simp only [cartDedupKey]
  rw [if_neg h1, if_neg h2]
  have b1 := bytesHex_take 6 (utf8Bytes tk1)
  have b2 := bytesHex_take 6 (utf8Bytes tk2)
  norm_num at b1 b2
  rw [b1, b2, hpre]

theorem char_toNat_lt (c : Char) : c.toNat < 1114112 := by
  rcases c.valid with h | ⟨_, h2⟩
  · exact Nat.lt_trans h (by norm_num)
  · exact h2

/-- The UTF-8 encoding of a valid code point starts with a byte below 256. -/
theorem utf8Char_head (n : Nat) (hn : n < 1114112) :
    ∃ b bs, utf8Char n = b :: bs ∧ b < 256 := by
  unfold utf8Char
  split_ifs with hc1 hc2 hc3
  · exact ⟨n, _, rfl, by omega⟩
  · exact ⟨_, _, rfl, by omega⟩
  · exact ⟨_, _, rfl, by omega⟩
  · exact ⟨_, _, rfl, by omega⟩

/-- A nonempty token's byte encoding starts with a byte below 256. -/
theorem utf8Bytes_head (tk : String) (h : tk ≠ "") :
    ∃ b bs, utf8Bytes tk = b :: bs ∧ b < 256 := by
  cases hd : tk.data with
  | nil => exact absurd (String.ext hd) h
  | cons c cs =>
    obtain ⟨b, bs, hb, hlt⟩ := utf8Char_head c.toNat (char_toNat_lt c)
    refine ⟨b, bs ++ cs.foldr (fun x acc => utf8Char x.toNat ++ acc) [], ?_, hlt⟩
    simp [utf8Bytes, hd, hb]

theorem hexVal_hexDigitChar (m : Nat) (h : m < 16) :
    hexVal (hexDigitChar m) = some m := by
  interval_cases m <;> decide

/-- Parsing a hex string that starts with a hex digit yields a number. -/
theorem parseIntHex_cons_isSome (c : Char) (d : Nat) (l : List Char)
    (h : hexVal c = some d) : (parseIntHex (c :: l)).isSome = true := by
  unfold parseIntHex
  have ht : takeHexDigits (c :: l) =
      (d :: (takeHexDigits l).1, (takeHexDigits l).2) := by
    simp only [takeHexDigits, h]
  rw [ht]
  simp

/-- A present, nonempty cart token always produces a non-NULL dedup key. -/
theorem cartDedupKey_isSome (tk : String) (h : tk ≠ "") :
    (cartDedupKey (some tk)).isSome = true := by
  obtain ⟨b, bs, hb, hlt⟩ := utf8Bytes_head tk h
  simp only [cartDedupKey]
  rw [if_neg h, hb]
  have htake : (bytesHex (b :: bs)).take 12
      = hexDigitChar (b / 16) :: (hexDigitChar (b % 16) :: (bytesHex bs).take 10) := by
    simp only [bytesHex, List.foldr_cons]
    rw [show (12 : Nat) = 10 + 1 + 1 from rfl]
    simp [List.take_succ_cons]
  rw [htake]
  exact parseIntHex_cons_isSome _ (b / 16) _ (hexVal_hexDigitChar (b / 16) (by omega))

/-- C10: the cart-abandoned receipt key is `cartDedupKey`: the integer read
from the first 12 hex digits (6 bytes) of the token's UTF-8 encoding, NULL
when the payload has no token.  A token-less delivery is never detected as a
duplicate — two such deliveries append two custom-event rows — while two
deliveries whose distinct tokens share their first 6 bytes map to the same
non-NULL key, so the second is answered as a duplicate with no write. -/
theorem cart_dedup_key_semantics (hmac : HmacFn) (secret : String) (req : WebhookRequest)
    (st : WebhookState) (t : Tenant) (tk1 tk2 : String) (cust1 cust2 : Option Nat)
    (hsig : verifyWebhook hmac secret req.rawBody req.signature = true)
    (ht : findTenantByDomain st.tenants req.shopDomain = some t)
    (h1ne : tk1 ≠ "") (h2ne : tk2 ≠ "")
    (hpre : (utf8Bytes tk1).take 6 = (utf8Bytes tk2).take 6)
    (hfresh : receiptConflict st.receipts
      ⟨t.id, "carts/abandoned", cartDedupKey (some tk1)⟩ = false) :
    cartDedupKey none = none ∧
    cartDedupKey (some tk1) = cartDedupKey (some tk2) ∧
    (cartDedupKey (some tk1)).isSome = true ∧
    (handleCartAbandoned hmac secret req ⟨some tk1, cust1⟩ st).1.receipts =
      st.receipts ++ [⟨t.id, "carts/abandoned", cartDedupKey (some tk1)⟩] ∧
    ((handleCartAbandoned hmac secret req ⟨none, cust1⟩ st).2 = .success false ∧
     (handleCartAbandoned hmac secret req ⟨none, cust2⟩
        (handleCartAbandoned hmac secret req ⟨none, cust1⟩ st).1).2 = .success false ∧
     (handleCartAbandoned hmac secret req ⟨none, cust2⟩
        (handleCartAbandoned hmac secret req ⟨none, cust1⟩ st).1).1.events.length
       = st.events.length + 2) ∧
    ((handleCartAbandoned hmac secret req ⟨some tk1, cust1⟩ st).2 = .success false ∧
     (handleCartAbandoned hmac secret req ⟨some tk2, cust2⟩
        (handleCartAbandoned hmac secret req ⟨some tk1, cust1⟩ st).1).2 = .success true ∧
     (handleCartAbandoned hmac secret req ⟨some tk2, cust2⟩
        (handleCartAbandoned hmac secret req ⟨some tk1, cust1⟩ st).1).1 =
       (handleCartAbandoned hmac secret req ⟨some tk1, cust1⟩ st).1) := by
  have hkeys := cartDedupKey_eq_of_take6 tk1 tk2 h1ne h2ne hpre
  have hsome := cartDedupKey_isSome tk1 h1ne
  obtain ⟨n, hn⟩ := Option.isSome_iff_exists.1 hsome
  have hconf : receiptConflict
      (st.receipts ++ [⟨t.id, "carts/abandoned", cartDedupKey (some tk1)⟩])
      ⟨t.id, "carts/abandoned", cartDedupKey (some tk1)⟩ = true := by
    rw [hn]
    simp [receiptConflict, List.any_append]
  have hn1 : handleCartAbandoned hmac secret req ⟨none, cust1⟩ st =
      ({ st with
           receipts := st.receipts ++ [⟨t.id, "carts/abandoned", none⟩]
           events := st.events ++
             [⟨t.id, resolveCustomer t.id cust1 st.customers, "cart_abandoned", none⟩] },
       .success false) := by
    simp [handleCartAbandoned, hsig, ht, cartDedupKey, receiptConflict_none]
  have hk1 : handleCartAbandoned hmac secret req ⟨some tk1, cust1⟩ st =
      ({ st with
           receipts := st.receipts ++ [⟨t.id, "carts/abandoned", cartDedupKey (some tk1)⟩]
           events := st.events ++
             [⟨t.id, resolveCustomer t.id cust1 st.customers, "cart_abandoned", some tk1⟩] },
       .success false) := by
    simp [handleCartAbandoned, hsig, ht, hfresh]
  have hk2 : handleCartAbandoned hmac secret req ⟨some tk2, cust2⟩
      ({ st with
           receipts := st.receipts ++ [⟨t.id, "carts/abandoned", cartDedupKey (some tk1)⟩]
           events := st.events ++
             [⟨t.id, resolveCustomer t.id cust1 st.customers, "cart_abandoned", some tk1⟩] }) =
      (({ st with
           receipts := st.receipts ++ [⟨t.id, "carts/abandoned", cartDedupKey (some tk1)⟩]
           events := st.events ++
             [⟨t.id, resolveCustomer t.id cust1 st.customers, "cart_abandoned", some tk1⟩] } :
         WebhookState),
       .success true) := by
    simp [handleCartAbandoned, hsig, ht, ← hkeys, hconf]
  refine ⟨rfl, hkeys, hsome, by rw [hk1], ⟨?_, ?_, ?_⟩, ⟨by rw [hk1], ?_, ?_⟩⟩
  · rw [hn1]
  · rw [hn1]
    simp [handleCartAbandoned, hsig, ht, cartDedupKey, receiptConflict_none]
  · rw [hn1]
    simp [handleCartAbandoned, hsig, ht, cartDedupKey, receiptConflict_none]
  · rw [hk1, hk2]
  · rw [hk1, hk2]

/-- C10 witness: tokens "abcdef1" and "abcdef2" differ but share their first
six bytes; token-less deliveries append two events, token deliveries dedup. -/
theorem cart_dedup_key_semantics_witness :
    cartDedupKey none = none ∧
    cartDedupKey (some "abcdef1") = cartDedupKey (some "abcdef2") ∧
    (cartDedupKey (some "abcdef1")).isSome = true ∧
    (handleCartAbandoned (fun _ _ => "sig") "sec" ⟨[1, 2], some "sig", some "shop"⟩
        ⟨some "abcdef1", some 7⟩
        ⟨[⟨1, "shop", none, "active"⟩], [], [], []⟩).1.receipts =
      (WebhookState.mk [⟨1, "shop", none, "active"⟩] [] [] []).receipts ++
        [⟨1, "carts/abandoned", cartDedupKey (some "abcdef1")⟩] ∧
    ((handleCartAbandoned (fun _ _ => "sig") "sec" ⟨[1, 2], some "sig", some "shop"⟩
        ⟨none, some 7⟩ ⟨[⟨1, "shop", none, "active"⟩], [], [], []⟩).2 = .success false ∧
     (handleCartAbandoned (fun _ _ => "sig") "sec" ⟨[1, 2], some "sig", some "shop"⟩
        ⟨none, none⟩
        (handleCartAbandoned (fun _ _ => "sig") "sec" ⟨[1, 2], some "sig", some "shop"⟩
          ⟨none, some 7⟩ ⟨[⟨1, "shop", none, "active"⟩], [], [], []⟩).1).2 = .success false ∧
     (handleCartAbandoned (fun _ _ => "sig") "sec" ⟨[1, 2], some "sig", some "shop"⟩
        ⟨none, none⟩
        (handleCartAbandoned (fun _ _ => "sig") "sec" ⟨[1, 2], some "sig", some "shop"⟩
          ⟨none, some 7⟩ ⟨[⟨1, "shop", none, "active"⟩], [], [], []⟩).1).1.events.length =
       (WebhookState.mk [⟨1, "shop", none, "active"⟩] [] [] []).events.length + 2) ∧
    ((handleCartAbandoned (fun _ _ => "sig") "sec" ⟨[1, 2], some "sig", some "shop"⟩
        ⟨some "abcdef1", some 7⟩
        ⟨[⟨1, "shop", none, "active"⟩], [], [], []⟩).2 = .success false ∧
     (handleCartAbandoned (fun _ _ => "sig") "sec" ⟨[1, 2], some "sig", some "shop"⟩
        ⟨some "abcdef2", none⟩
        (handleCartAbandoned (fun _ _ => "sig") "sec" ⟨[1, 2], some "sig", some "shop"⟩
          ⟨some "abcdef1", some 7⟩
          ⟨[⟨1, "shop", none, "active"⟩], [], [], []⟩).1).2 = .success true ∧
     (handleCartAbandoned (fun _ _ => "sig") "sec" ⟨[1, 2], some "sig", some "shop"⟩
        ⟨some "abcdef2", none⟩
        (handleCartAbandoned (fun _ _ => "sig") "sec" ⟨[1, 2], some "sig", some "shop"⟩
          ⟨some "abcdef1", some 7⟩
          ⟨[⟨1, "shop", none, "active"⟩], [], [], []⟩).1).1 =
       (handleCartAbandoned (fun _ _ => "sig") "sec" ⟨[1, 2], some "sig", some "shop"⟩
          ⟨some "abcdef1", some 7⟩
          ⟨[⟨1, "shop", none, "active"⟩], [], [], []⟩).1) :=
  cart_dedup_key_semantics (fun _ _ => "sig") "sec" ⟨[1, 2], some "sig", some "shop"⟩
    ⟨[⟨1, "shop", none, "active"⟩], [], [], []⟩ ⟨1, "shop", none, "active"⟩
    "abcdef1" "abcdef2" (some 7) none rfl rfl (by decide) (by decide) (by decide)
    (by decide)

end Xeno
